import Mathlib

/-!
Formal model of the ai-trip-planner repository (`agent.py`, `tools.py`):
a shallow embedding of its response parsing, agent construction and tool
functions, together with theorems settling the specified properties.

Python values decoded from JSON are modelled by `JValue`; Python `int` maps
to `Int` and a Python `float` produced from a JSON decimal literal is kept
as an exact decimal `mantissa * 10 ^ exp10`.  External effects (environment
variables, HTTP) are passed in explicitly as function arguments, and the
requests a function issues are returned as an explicit trace.
-/

/-- Whitespace accepted by Python `json` between JSON tokens: space, tab,
newline, carriage return. -/
def isJsonWs (c : Char) : Bool :=
  let n := c.toNat
  n == 32 || n == 9 || n == 10 || n == 13

/-- Drop leading JSON whitespace. -/
def skipWs (cs : List Char) : List Char :=
  cs.dropWhile isJsonWs

/-- Characters stripped by Python `str.strip()` with no argument (Unicode
whitespace: ASCII whitespace, the C1/Unicode space characters). -/
def isPySpace (c : Char) : Bool :=
  let n := c.toNat
  (9 ≤ n && n ≤ 13) || n == 32 || (28 ≤ n && n ≤ 31) || n == 0x85 ||
    n == 0xA0 || n == 0x1680 || (0x2000 ≤ n && n ≤ 0x200A) || n == 0x2028 ||
    n == 0x2029 || n == 0x202F || n == 0x205F || n == 0x3000

/-- `str.strip()` on a character list: remove leading and trailing
whitespace. -/
def pyStripList (cs : List Char) : List Char :=
  (((cs.dropWhile isPySpace).reverse.dropWhile isPySpace).reverse)

/-- Python `str.strip()` (no argument). -/
def pyStrip (s : String) : String :=
  String.mk (pyStripList s.toList)

/-- Values produced by Python `json.loads`: `None`, `bool`, `int`, `float`
(from a decimal literal, kept exact as `mantissa * 10 ^ exp10`; the
`NaN` / `Infinity` / `-Infinity` extensions get their own constructors),
`str`, `list`, `dict` (insertion-ordered key/value pairs, keys unique). -/
inductive JValue where
  | null
  | bool (b : Bool)
  | int (n : Int)
  | dec (mantissa : Int) (exp10 : Int)
  | nan
  | inf
  | ninf
  | str (s : String)
  | arr (elems : List JValue)
  | obj (fields : List (String × JValue))

/-- The character `{` (written via its code point). -/
def lbrace : Char := Char.ofNat 0x7b

/-- The character `}` (written via its code point). -/
def rbrace : Char := Char.ofNat 0x7d

/-- Value of a hexadecimal digit. -/
def hexDigitVal (c : Char) : Option Nat :=
  let n := c.toNat
  if 48 ≤ n ∧ n ≤ 57 then some (n - 48)
  else if 97 ≤ n ∧ n ≤ 102 then some (n - 87)
  else if 65 ≤ n ∧ n ≤ 70 then some (n - 55)
  else none

/-- Value of a four-digit hexadecimal escape. -/
def hex4val (a b c d : Char) : Option Nat := do
  let va ← hexDigitVal a
  let vb ← hexDigitVal b
  let vc ← hexDigitVal c
  let vd ← hexDigitVal d
  some (((va * 16 + vb) * 16 + vc) * 16 + vd)

/-- Translate a single-character JSON string escape (`\" \\ \/ \b \f \n \r \t`). -/
def escapeChar (c : Char) : Option Char :=
  match c.toNat with
  | 34 => some c
  | 92 => some c
  | 47 => some c
  | 98 => some (Char.ofNat 8)
  | 102 => some (Char.ofNat 12)
  | 110 => some (Char.ofNat 10)
  | 114 => some (Char.ofNat 13)
  | 116 => some (Char.ofNat 9)
  | _ => none

/-- Scan the body of a JSON string (the part after the opening quote), as
Python `json` does in strict mode: control characters are rejected, escapes
are decoded, `\uXXXX` pairs of surrogates are combined.  Returns the decoded
characters and the input remaining after the closing quote.  The `Nat`
argument is fuel making the recursion structural; every step consumes at
least one input character, so fuel `cs.length + 1` always suffices. -/
def scanStringBody : Nat → List Char → Option (List Char × List Char)
  | 0, _ => none
  | _ + 1, [] => none
  | _ + 1, '"' :: rest => some ([], rest)
  | fuel + 1, '\\' :: 'u' :: a :: b :: c :: d :: rest =>
    match hex4val a b c d with
    | none => none
    | some h1 =>
      if 0xD800 ≤ h1 && h1 < 0xDC00 then
        match rest with
        | '\\' :: 'u' :: a2 :: b2 :: c2 :: d2 :: rest2 =>
          match hex4val a2 b2 c2 d2 with
          | some h2 =>
            if 0xDC00 ≤ h2 && h2 < 0xE000 then
              match scanStringBody fuel rest2 with
              | some sr =>
                some (Char.ofNat ((h1 - 0xD800) * 1024 + (h2 - 0xDC00) + 0x10000)
                        :: sr.1, sr.2)
              | none => none
            else
              match scanStringBody fuel rest with
              | some sr => some (Char.ofNat h1 :: sr.1, sr.2)
              | none => none
          | none =>
            match scanStringBody fuel rest with
            | some sr => some (Char.ofNat h1 :: sr.1, sr.2)
            | none => none
        | _ =>
          match scanStringBody fuel rest with
          | some sr => some (Char.ofNat h1 :: sr.1, sr.2)
          | none => none
      else
        match scanStringBody fuel rest with
        | some sr => some (Char.ofNat h1 :: sr.1, sr.2)
        | none => none
  | fuel + 1, '\\' :: e :: rest =>
    match escapeChar e with
    | some c =>
      match scanStringBody fuel rest with
      | some sr => some (c :: sr.1, sr.2)
      | none => none
    | none => none
  | fuel + 1, c :: rest =>
    if c.toNat < 0x20 then none
    else
      match scanStringBody fuel rest with
      | some sr => some (c :: sr.1, sr.2)
      | none => none

/-- Digits to the natural number they denote in base 10. -/
def digitsToNat (ds : List Char) : Nat :=
  ds.foldl (fun n c => n * 10 + (c.toNat - '0'.toNat)) 0

/-- Scan the integer part of a JSON number: `0` or a nonzero digit followed
by digits (leading zeros are not matched, as in Python json NUMBER_RE). -/
def scanIntPart : List Char → Option (List Char × List Char)
  | '0' :: rest => some (['0'], rest)
  | c :: rest =>
    if c.isDigit then
      let s := rest.span Char.isDigit
      some (c :: s.1, s.2)
    else none
  | [] => none

/-- Scan a JSON number starting at `cs` (the sign already handled by the
caller), returning the value and the remaining input.  A fraction or an
exponent part is consumed only when syntactically complete, mirroring the
maximal-munch regular expression Python json uses. -/
def scanNumberAfterSign (sign : Int) (cs : List Char) : Option (JValue × List Char) :=
  match scanIntPart cs with
  | none => none
  | some (intDs, r1) =>
    let fracScan : List Char × List Char :=
      match r1 with
      | '.' :: c :: r =>
        if c.isDigit then
          let s := r.span Char.isDigit
          (c :: s.1, s.2)
        else ([], r1)
      | _ => ([], r1)
    let fracDs := fracScan.1
    let r2 := fracScan.2
    let expScan : Option (Int × List Char) :=
      match r2 with
      | e :: r =>
        if e == 'e' || e == 'E' then
          let signed : Int × List Char :=
            match r with
            | c0 :: t =>
              if c0 == '-' then (-1, t) else if c0 == '+' then (1, t) else (1, r)
            | [] => (1, r)
          match signed.2 with
          | c :: t =>
            if c.isDigit then
              let s := t.span Char.isDigit
              some (signed.1 * (digitsToNat (c :: s.1) : Int), s.2)
            else none
          | [] => none
        else none
      | [] => none
    match expScan with
    | some (ev, r3) =>
      some (.dec (sign * (digitsToNat (intDs ++ fracDs) : Int))
              (ev - (fracDs.length : Int)), r3)
    | none =>
      if fracDs.isEmpty then
        some (.int (sign * (digitsToNat intDs : Int)), r2)
      else
        some (.dec (sign * (digitsToNat (intDs ++ fracDs) : Int))
                (0 - (fracDs.length : Int)), r2)

/-- Drop an expected literal from the front of the input. -/
def dropLit : List Char → List Char → Option (List Char)
  | [], cs => some cs
  | l :: ls, c :: cs => if c == l then dropLit ls cs else none
  | _ :: _, [] => none

/-- Python `dict(pairs)` over string keys: position of the first occurrence
of a key, value of the last. -/
def insertUpd : List (String × JValue) → String → JValue → List (String × JValue)
  | [], k, v => [(k, v)]
  | (k', v') :: rest, k, v =>
    if k' == k then (k', v) :: rest else (k', v') :: insertUpd rest k v

/-- Fold raw parsed key/value pairs into Python `dict` order/overwrite
semantics. -/
def pyDict (ps : List (String × JValue)) : List (String × JValue) :=
  ps.foldl (fun acc kv => insertUpd acc kv.1 kv.2) []

/-- Parsing mode: a single JSON value, the members of an object (after `{`,
first key at the head), or the elements of an array (after `[`). -/
inductive PMode where
  | value
  | members
  | elements

/-- Recursive core of the `json.loads` model, fuelled so that the recursion
is structural (every recursive call also consumes input, so any fuel of at
least twice the input length suffices).  In mode `.members` the result is
`.obj` of the raw pairs in parse order; mode `.elements` yields `.arr`. -/
def parseCore : Nat → PMode → List Char → Option (JValue × List Char)
  | 0, _, _ => none
  | fuel + 1, .value, cs =>
    match cs with
    | [] => none
    | c :: rest =>
      if c == lbrace then
        let r1 := skipWs rest
        match r1 with
        | c2 :: r2 =>
          if c2 == rbrace then some (.obj [], r2)
          else
            match parseCore fuel .members r1 with
            | some (.obj ps, r) => some (.obj (pyDict ps), r)
            | _ => none
        | [] => none
      else if c == '[' then
        let r1 := skipWs rest
        match r1 with
        | c2 :: r2 =>
          if c2 == ']' then some (.arr [], r2)
          else parseCore fuel .elements r1
        | [] => none
      else if c == '"' then
        match scanStringBody (rest.length + 1) rest with
        | some (s, r) => some (.str (String.mk s), r)
        | none => none
      else if c == 't' then
        (dropLit "true".toList cs).map (fun r => (.bool true, r))
      else if c == 'f' then
        (dropLit "false".toList cs).map (fun r => (.bool false, r))
      else if c == 'n' then
        (dropLit "null".toList cs).map (fun r => (.null, r))
      else if c == 'N' then
        (dropLit "NaN".toList cs).map (fun r => (.nan, r))
      else if c == 'I' then
        (dropLit "Infinity".toList cs).map (fun r => (.inf, r))
      else if c == '-' then
        match rest with
        | 'I' :: _ =>
          (dropLit "-Infinity".toList cs).map (fun r => (.ninf, r))
        | _ => scanNumberAfterSign (-1) rest
      else
        scanNumberAfterSign 1 cs
  | fuel + 1, .members, cs =>
    match cs with
    | c :: rest =>
      if c == '"' then
        match scanStringBody (rest.length + 1) rest with
        | none => none
        | some (key, r1) =>
          match skipWs r1 with
          | ':' :: r2 =>
            match parseCore fuel .value (skipWs r2) with
            | none => none
            | some (v, r3) =>
              match skipWs r3 with
              | c4 :: r4 =>
                if c4 == ',' then
                  match parseCore fuel .members (skipWs r4) with
                  | some (.obj ps, r5) =>
                    some (.obj ((String.mk key, v) :: ps), r5)
                  | _ => none
                else if c4 == rbrace then
                  some (.obj [(String.mk key, v)], r4)
                else none
              | [] => none
          | _ => none
      else none
    | [] => none
  | fuel + 1, .elements, cs =>
    match parseCore fuel .value (skipWs cs) with
    | none => none
    | some (v, r1) =>
      match skipWs r1 with
      | c2 :: r2 =>
        if c2 == ',' then
          match parseCore fuel .elements r2 with
          | some (.arr vs, r3) => some (.arr (v :: vs), r3)
          | _ => none
        else if c2 == ']' then some (.arr [v], r2)
        else none
      | [] => none

/-- Model of Python `json.loads` on a string: skip leading whitespace,
parse one value, require only whitespace to remain.  `.error` models a
raised `json.JSONDecodeError` (messages abbreviated). -/
def jsonLoads (s : String) : Except String JValue :=
  let cs := skipWs s.toList
  match parseCore (s.length * 2 + 2) .value cs with
  | some (v, rest) =>
    if (skipWs rest).isEmpty then .ok v else .error "Extra data"
  | none => .error "Expecting value"

/-- Association-list lookup with string keys (Python `dict` lookup on the
decoded object representation). -/
def assocLookup (k : String) : List (String × JValue) → Option JValue
  | [] => none
  | (k', v) :: rest => if k' == k then some v else assocLookup k rest

/-- Look a key up in a decoded value, `none` when the value is not an
object or lacks the key. -/
def jLookup (k : String) (v : JValue) : Option JValue :=
  match v with
  | .obj fs => assocLookup k fs
  | _ => none

/-- Python truthiness of a decoded value (`if not x`). -/
def pyFalsy : JValue → Bool
  | .null => true
  | .bool b => !b
  | .int n => n == 0
  | .dec m _ => m == 0
  | .nan => false
  | .inf => false
  | .ninf => false
  | .str s => s == ""
  | .arr es => es.isEmpty
  | .obj fs => fs.isEmpty

/-- Python `"sep".join(lines)`. -/
def pyJoin (sep : String) : List String → String
  | [] => ""
  | x :: xs => xs.foldl (fun acc y => acc ++ sep ++ y) x

/-- Python `str.capitalize()`: first character upper-cased, the rest
lower-cased (ASCII case mapping). -/
def pyCapitalize (s : String) : String :=
  match s.toList with
  | [] => ""
  | c :: rest => String.mk (c.toUpper :: rest.map Char.toLower)

/-- `repr()` of a decoded value, fuelled by its size; containers render
their entries recursively, strings render quoted (quote selection and
inner escaping simplified).  Only used for interpolating decoded values
into summary lines, which no further computation inspects. -/
def pyReprFuel : Nat → JValue → String
  | _, .null => "None"
  | _, .bool true => "True"
  | _, .bool false => "False"
  | _, .int n => toString n
  | _, .dec m e => toString m ++ "e" ++ toString e
  | _, .nan => "nan"
  | _, .inf => "inf"
  | _, .ninf => "-inf"
  | _, .str s => "\x27" ++ s ++ "\x27"
  | 0, .arr _ => "[...]"
  | 0, .obj _ => "\x7b...\x7d"
  | fuel + 1, .arr es => "[" ++ pyJoin ", " (es.map (fun e => pyReprFuel fuel e)) ++ "]"
  | fuel + 1, .obj fs =>
    "\x7b" ++
      pyJoin ", "
        (fs.map (fun kv => "\x27" ++ kv.1 ++ "\x27: " ++ pyReprFuel fuel kv.2)) ++
      "\x7d"

/-- Size of a decoded value: enough `pyReprFuel` fuel to render it fully. -/
def jSize : JValue → Nat
  | .arr es => 1 + (es.attach.map (fun x => jSize x.1)).sum
  | .obj fs => 1 + (fs.attach.map (fun x => jSize x.1.2)).sum
  | _ => 1
decreasing_by
  · have h := List.sizeOf_lt_of_mem x.2
    simp_wf
    omega
  · rcases x with ⟨⟨k, v⟩, hx⟩
    have h := List.sizeOf_lt_of_mem hx
    simp_wf
    simp only [Prod.mk.sizeOf_spec] at h
    omega

/-- Python `str()` of a decoded value (`f"{x}"` interpolation). -/
def pyStr (v : JValue) : String :=
  match v with
  | .str s => s
  | v => pyReprFuel (jSize v) v

/-- Round `n / d` to the nearest integer, ties to even (`d > 0`). -/
def roundHalfEvenDiv (n : Int) (d : Int) : Int :=
  let q := n / d
  let q := if n % d < 0 then q - 1 else q
  let r := n - q * d
  if 2 * r < d then q
  else if 2 * r > d then q + 1
  else if q % 2 == 0 then q else q + 1

/-- Tenths of `m * 10 ^ e`, rounded half to even: the integer Python
`round(x * 10)` would produce for the decoded decimal. -/
def decTenths (m e : Int) : Int :=
  if 0 ≤ e + 1 then m * 10 ^ (e + 1).toNat
  else roundHalfEvenDiv m (10 ^ (0 - (e + 1)).toNat)

/-- Render a number of tenths as a fixed-point string with one decimal. -/
def fmtTenths (t : Int) : String :=
  let sign := if t < 0 then "-" else ""
  let a := t.natAbs
  sign ++ toString (a / 10) ++ "." ++ toString (a % 10)

/-- Python `f"{x:.1f}"` on a decoded value: defined for numbers, `none`
models the `TypeError`/`ValueError` raised on any other type. -/
def formatFixed1 : JValue → Option String
  | .int n => some (fmtTenths (n * 10))
  | .dec m e => some (fmtTenths (decTenths m e))
  | .nan => some "nan"
  | .inf => some "inf"
  | .ninf => some "-inf"
  | _ => none

/-- Python `v[k]` for a string key: `KeyError` / `TypeError` model. -/
def pyGetItemStr (v : JValue) (k : String) : Except String JValue :=
  match v with
  | .obj fs =>
    match assocLookup k fs with
    | some x => .ok x
    | none => .error ("KeyError: " ++ k)
  | _ => .error "TypeError: value is not subscriptable by a string"

/-- Python `v[0]`: first element of a list or string, errors otherwise. -/
def pyGetItem0 (v : JValue) : Except String JValue :=
  match v with
  | .arr (x :: _) => .ok x
  | .arr [] => .error "IndexError: list index out of range"
  | .str s =>
    match s.toList with
    | c :: _ => .ok (.str (String.mk [c]))
    | [] => .error "IndexError: string index out of range"
  | .obj _ => .error "KeyError: 0"
  | _ => .error "TypeError: value is not subscriptable"

/-- Python `v.get(k, dflt)`: requires a dict (`AttributeError` otherwise). -/
def pyDictGet (v : JValue) (k : String) (dflt : JValue) : Except String JValue :=
  match v with
  | .obj fs => .ok ((assocLookup k fs).getD dflt)
  | _ => .error "AttributeError: object has no attribute get"

/-- Python iteration `for item in v`: list elements, string characters, or
dict keys; `TypeError` otherwise. -/
def pyIter (v : JValue) : Except String (List JValue) :=
  match v with
  | .arr es => .ok es
  | .str s => .ok (s.toList.map (fun c => .str (String.mk [c])))
  | .obj fs => .ok (fs.map (fun kv => .str kv.1))
  | _ => .error "TypeError: object is not iterable"

/-- Base URL constant from `tools.py`. -/
def OPENWEATHER_BASE_URL : String := "https://api.openweathermap.org/data/2.5"

/-- An outbound `requests.get` call: URL, query parameters, timeout in
seconds. -/
structure HttpRequest where
  url : String
  params : List (String × String)
  timeout : Nat

/-- An HTTP response: status code and body text. -/
structure HttpResponse where
  status : Nat
  body : String

/-- The current-weather request issued by `get_current_weather`. -/
def currentWeatherReq (apiKey city : String) : HttpRequest :=
  { url := OPENWEATHER_BASE_URL ++ "/weather"
    params := [("q", city), ("appid", apiKey), ("units", "metric")]
    timeout := 10 }

/-- The forecast request issued by `get_current_weather` (`cnt = 8`). -/
def forecastReq (apiKey city : String) : HttpRequest :=
  { url := OPENWEATHER_BASE_URL ++ "/forecast"
    params := [("q", city), ("appid", apiKey), ("units", "metric"), ("cnt", "8")]
    timeout := 10 }

/-- `Response.raise_for_status()`: an error for 4xx/5xx status codes. -/
def raiseForStatus (r : HttpResponse) : Except String Unit :=
  if 400 ≤ r.status ∧ r.status < 600 then
    .error ("HTTPError: " ++ toString r.status)
  else .ok ()

/-- The fixed message returned when `OPENWEATHER_API_KEY` is not set. -/
def weatherUnavailableMsg : String :=
  "Real-time weather is unavailable because OPENWEATHER_API_KEY is not set. You may still provide general, non-real-time weather expectations for the season."

/-- The fallback message built in the `except` clause of
`get_current_weather`, interpolating the exception text. -/
def couldNotFetchMsg (e : String) : String :=
  "Could not fetch real-time weather data from OpenWeather. Reason: " ++ e ++
    ". You may still provide general guidance based on the typical climate of the destination."

/-- Body of the `for item in forecast.get("list", [])` loop: extract
`dt_txt`, `main.temp` and `weather[0].description` from one forecast item
(defaults as in the source). -/
def forecastEntry (item : JValue) : Except String (JValue × JValue × JValue) := do
  let time ← pyDictGet item "dt_txt" .null
  let mainObj ← pyDictGet item "main" (.obj [])
  let temp ← pyDictGet mainObj "temp" .null
  let weatherArr ← pyDictGet item "weather" (.arr [.obj []])
  let w0 ← pyGetItem0 weatherArr
  let desc ← pyDictGet w0 "description" (.str "")
  Except.ok (time, temp, desc)

/-- The forecast loop over all items. -/
def forecastEntries : List JValue → Except String (List (JValue × JValue × JValue))
  | [] => .ok []
  | item :: rest => do
    let e ← forecastEntry item
    let es ← forecastEntries rest
    Except.ok (e :: es)

/-- One forecast summary line
(`f"- {time}: {temp:.1f}°C, {description}"`). -/
def forecastLine (time temp desc : JValue) : Except String String :=
  match formatFixed1 temp with
  | some t => .ok ("- " ++ pyStr time ++ ": " ++ t ++ "°C, " ++ pyStr desc)
  | none => .error "TypeError: unsupported format string"

/-- The summary-line loop: items with a falsy time are skipped
(`if not f["time"]: continue`). -/
def forecastLines : List (JValue × JValue × JValue) → Except String (List String)
  | [] => .ok []
  | (time, temp, desc) :: rest =>
    if pyFalsy time then forecastLines rest
    else
      match forecastLine time temp desc with
      | .error e => .error e
      | .ok l =>
        match forecastLines rest with
        | .error e => .error e
        | .ok ls => .ok (l :: ls)

/-- The part of the `try` body after both responses are decoded: build the
summary string from the two decoded JSON documents. -/
def weatherSummaryText (city : String) (current forecast : JValue) :
    Except String String := do
  let w ← pyGetItemStr current "weather"
  let w0 ← pyGetItem0 w
  let descV ← pyGetItemStr w0 "description"
  let descS ←
    match descV with
    | .str s => Except.ok s
    | _ => Except.error "AttributeError: object has no attribute capitalize"
  let mainObj ← pyGetItemStr current "main"
  let temp ← pyGetItemStr mainObj "temp"
  let feels ← pyGetItemStr mainObj "feels_like"
  let tempS ←
    match formatFixed1 temp with
    | some s => Except.ok s
    | none => Except.error "TypeError: unsupported format string"
  let feelsS ←
    match formatFixed1 feels with
    | some s => Except.ok s
    | none => Except.error "TypeError: unsupported format string"
  let listV ← pyDictGet forecast "list" (.arr [])
  let items ← pyIter listV
  let entries ← forecastEntries items
  let lines ← forecastLines entries
  Except.ok (pyJoin "\n"
    (("Current weather in " ++ city ++ ": " ++ pyCapitalize descS ++ ", " ++
        tempS ++ "°C (feels like " ++ feelsS ++ "°C).") ::
      "Short-term forecast (next ~24 hours):" :: lines))

/-- The `try` body of `get_current_weather`: both requests in source order
(the second only reached when the first fully succeeds), with the trace of
issued requests. -/
def weatherTryBody (net : HttpRequest → Except String HttpResponse)
    (apiKey city : String) : List HttpRequest × Except String String :=
  let req1 := currentWeatherReq apiKey city
  match net req1 with
  | .error e => ([req1], .error e)
  | .ok resp1 =>
    match raiseForStatus resp1 with
    | .error e => ([req1], .error e)
    | .ok _ =>
      match jsonLoads resp1.body with
      | .error e => ([req1], .error ("JSONDecodeError: " ++ e))
      | .ok current =>
        let req2 := forecastReq apiKey city
        match net req2 with
        | .error e => ([req1, req2], .error e)
        | .ok resp2 =>
          match raiseForStatus resp2 with
          | .error e => ([req1, req2], .error e)
          | .ok _ =>
            match jsonLoads resp2.body with
            | .error e => ([req1, req2], .error ("JSONDecodeError: " ++ e))
            | .ok forecast =>
              ([req1, req2], weatherSummaryText city current forecast)

/-- `get_current_weather` from `tools.py`.  The environment and the network
are explicit arguments; the result carries the trace of issued requests and
the returned string.  The function is total: every failure of the `try`
body is mapped to the fallback message, never propagated. -/
def get_current_weather (env : String → Option String)
    (net : HttpRequest → Except String HttpResponse) (city : String) :
    List HttpRequest × String :=
  match env "OPENWEATHER_API_KEY" with
  | none => ([], weatherUnavailableMsg)
  | some apiKey =>
    if apiKey == "" then ([], weatherUnavailableMsg)
    else
      let r := weatherTryBody net apiKey city
      match r.2 with
      | .ok s => (r.1, s)
      | .error e => (r.1, couldNotFetchMsg e)

/-- `get_dummy_flight_options` from `tools.py`: each record is a dict in
source field order. -/
def get_dummy_flight_options (city : String) : List (List (String × JValue)) :=
  [ [("airline", .str "Example Air"),
     ("from", .str "Your Home City"),
     ("to", .str city),
     ("stops", .int 0),
     ("duration_hours", .int 7),
     ("price_usd", .int 650),
     ("notes", .str "Morning non-stop flight with a meal included.")],
    [("airline", .str "Sample Airlines"),
     ("from", .str "Your Home City"),
     ("to", .str city),
     ("stops", .int 1),
     ("duration_hours", .int 10),
     ("price_usd", .int 520),
     ("notes", .str "One layover, budget-friendly option.")],
    [("airline", .str "Budget Wings"),
     ("from", .str "Your Home City"),
     ("to", .str city),
     ("stops", .int 2),
     ("duration_hours", .int 13),
     ("price_usd", .int 430),
     ("notes", .str "Ultra-budget with basic amenities.")] ]

/-- `get_dummy_hotel_options` from `tools.py`. -/
def get_dummy_hotel_options (city : String) : List (List (String × JValue)) :=
  [ [("name", .str (city ++ " Central Comfort Hotel")),
     ("stars", .int 3),
     ("price_per_night_usd", .int 90),
     ("location", .str "Central area, good public transport"),
     ("notes", .str "Great value, basic but clean rooms.")],
    [("name", .str (city ++ " Riverside Boutique")),
     ("stars", .int 4),
     ("price_per_night_usd", .int 150),
     ("location", .str "Scenic neighborhood near main attractions"),
     ("notes", .str "Stylish boutique hotel with breakfast included.")],
    [("name", .str ("Luxury Grand " ++ city)),
     ("stars", .int 5),
     ("price_per_night_usd", .int 260),
     ("location", .str "Premium district"),
     ("notes", .str "High-end amenities, spa, and concierge services.")] ]

/-- A raised Python exception class relevant to `create_trip_planner_agent`:
`RuntimeError` with its message. -/
inductive PyError where
  | runtimeError (msg : String)

/-- Construction steps performed by `create_trip_planner_agent`, in order,
used as an explicit trace showing what has been constructed before a
failure.  No step issues an outbound call; the LLM client is merely
configured. -/
inductive BuildStep where
  | constructChatGoogleGenerativeAI (model : String) (temperatureTenths : Int)
      (maxOutputTokens : Nat)
  | buildPrompt
  | createToolCallingAgent
  | constructAgentExecutor (verbose : Bool)

/-- The configured `AgentExecutor` returned on success: the Gemini model
configuration (temperature `0.7` kept exact as tenths), the bound tool
names in order, and the verbose flag. -/
structure AgentExecutorModel where
  llmModel : String
  llmTemperatureTenths : Int
  llmMaxOutputTokens : Nat
  toolNames : List String
  verbose : Bool

/-- The `RuntimeError` message raised when `GOOGLE_API_KEY` is missing. -/
def missingKeyMsg : String :=
  "GOOGLE_API_KEY is not set. Please create a .env file with your Gemini API key."

/-- `create_trip_planner_agent` from `agent.py`: reads `GOOGLE_API_KEY`
from the environment; raises `RuntimeError` when it is unset (or empty,
`if not google_api_key`) before any construction step, and otherwise
constructs the LLM client, prompt, agent and executor in source order. -/
def create_trip_planner_agent (env : String → Option String) :
    List BuildStep × Except PyError AgentExecutorModel :=
  match env "GOOGLE_API_KEY" with
  | none => ([], .error (.runtimeError missingKeyMsg))
  | some k =>
    if k == "" then ([], .error (.runtimeError missingKeyMsg))
    else
      ([.constructChatGoogleGenerativeAI "gemini-1.0-pro" 7 2048,
        .buildPrompt, .createToolCallingAgent, .constructAgentExecutor true],
       .ok { llmModel := "gemini-1.0-pro"
             llmTemperatureTenths := 7
             llmMaxOutputTokens := 2048
             toolNames := ["get_current_weather", "get_dummy_flight_options",
                           "get_dummy_hotel_options"]
             verbose := true })

/-- The natural-language instruction `plan_trip` sends to the agent. -/
def userRequest (city : String) (numDays : Int) : String :=
  "Plan a " ++ toString numDays ++ "-day trip to " ++ city ++
    ". Use tools to get real-time weather (if available) and example flight and hotel options. Then follow the RESPONSE FORMAT specified in the system message and return only the JSON object."

/-- The `city_overview` placeholder of the fallback structure (the two
adjacent source string literals concatenated). -/
def parseErrorCityOverview : String :=
  "There was an error parsing the AI\x27s response. Below is the raw text output."

/-- The fallback structure built when JSON parsing of the agent output
fails, carrying the (already stripped) raw text. -/
def fallbackTripObj (outputText : String) : JValue :=
  .obj [("city_overview", .str parseErrorCityOverview),
        ("weather_summary", .str ""),
        ("suggested_dates", .str ""),
        ("flight_options", .arr []),
        ("hotel_options", .arr []),
        ("itinerary", .arr []),
        ("raw_output", .str outputText)]

/-- The parsing step of `plan_trip` (`try: parsed = json.loads(...)
except json.JSONDecodeError: parsed = {...}`), applied to the stripped
output text.  Total: a decode failure becomes the fallback structure. -/
def parseAgentOutput (outputText : String) : JValue :=
  match jsonLoads outputText with
  | .ok v => v
  | .error _ => fallbackTripObj outputText

/-- `plan_trip` from `agent.py`.  The agent is an oracle from the request
text to the final output text (`result.get("output", "")`); the output is
stripped and then parsed. -/
def plan_trip (invokeAgent : String → String) (city : String) (numDays : Int) :
    JValue :=
  let req := userRequest city numDays
  let outputText := pyStrip (invokeAgent req)
  parseAgentOutput outputText

/-- Modelled from the spec (section 3 data model): the six top-level keys
of a Trip Plan result, in table order. -/
def sixKeys : List String :=
  ["city_overview", "weather_summary", "suggested_dates",
   "flight_options", "hotel_options", "itinerary"]

/-- Modelled from the spec (section 3 data model): the top-level type of
each schema field — text for the three prose fields, a list for the three
list fields. -/
def tripFieldTypeOk (k : String) (v : JValue) : Bool :=
  if k == "city_overview" || k == "weather_summary" || k == "suggested_dates" then
    match v with
    | .str _ => true
    | _ => false
  else
    match v with
    | .arr _ => true
    | _ => false

/-- Modelled from the spec (section 3 data model): a decoded value matches
the Trip Plan schema when it is an object with exactly the six top-level
keys in order, each of the right top-level type (`raw_output` is present
only when decoding fails, hence absent here). -/
def matchesTripSchema : JValue → Bool
  | .obj fs =>
    fs.map Prod.fst == sixKeys && fs.all (fun kv => tripFieldTypeOk kv.1 kv.2)
  | _ => false

/-- Extract an integer field from each record that has it. -/
def intFields (k : String) (rs : List (List (String × JValue))) : List Int :=
  rs.filterMap (fun r =>
    match assocLookup k r with
    | some (.int n) => some n
    | _ => none)

theorem assocLookup_eq_none_of_not_mem (k : String)
    (fs : List (String × JValue)) (h : k ∉ fs.map Prod.fst) :
    assocLookup k fs = none := by
  induction fs with
  | nil => rfl
  | cons p rest ih =>
    simp only [List.map_cons, List.mem_cons] at h
    push_neg at h
    have hne : (p.1 == k) = false := by
      simp only [beq_eq_false_iff_ne]
      exact fun hc => h.1 hc.symm
    simp [assocLookup, hne, ih h.2]

/-- C2: the response-parsing step of `plan_trip` never raises to its
caller: it is a total function of the output text; a decode failure is
downgraded to the fallback structure carrying the raw text, and a decode
success is passed through. -/
theorem c2_parse_never_raises (t : String) :
    (∀ e, jsonLoads t = .error e → parseAgentOutput t = fallbackTripObj t) ∧
    (∀ v, jsonLoads t = .ok v → parseAgentOutput t = v) := by
  constructor
  · intro e h
    simp [parseAgentOutput, h]
  · intro v h
    simp [parseAgentOutput, h]

/-- Witness for C2 at concrete inputs. -/
theorem c2_witness :
    parseAgentOutput "not json" = fallbackTripObj "not json" ∧
    parseAgentOutput "3" = JValue.int 3 :=
  ⟨(c2_parse_never_raises "not json").1 "Expecting value" rfl,
   (c2_parse_never_raises "3").2 (JValue.int 3) rfl⟩

/-- C3: on any undecodable input text the parser returns the fallback
object: placeholder `city_overview`, empty strings for `weather_summary`
and `suggested_dates`, empty lists for the three list fields, and
`raw_output` exactly equal to the input text. -/
theorem c3_fallback_structure (t e : String)
    (hfail : jsonLoads t = .error e) :
    parseAgentOutput t = fallbackTripObj t ∧
    jLookup "city_overview" (parseAgentOutput t) =
      some (.str parseErrorCityOverview) ∧
    jLookup "weather_summary" (parseAgentOutput t) = some (.str "") ∧
    jLookup "suggested_dates" (parseAgentOutput t) = some (.str "") ∧
    jLookup "flight_options" (parseAgentOutput t) = some (.arr []) ∧
    jLookup "hotel_options" (parseAgentOutput t) = some (.arr []) ∧
    jLookup "itinerary" (parseAgentOutput t) = some (.arr []) ∧
    jLookup "raw_output" (parseAgentOutput t) = some (.str t) := by
  have hp : parseAgentOutput t = fallbackTripObj t := by
    simp [parseAgentOutput, hfail]
  refine ⟨hp, ?_, ?_, ?_, ?_, ?_, ?_, ?_⟩ <;> rw [hp] <;> rfl

/-- Witness for C3 at a concrete undecodable input. -/
theorem c3_witness :
    jLookup "raw_output" (parseAgentOutput "oops!") =
      some (JValue.str "oops!") :=
  (c3_fallback_structure "oops!" "Expecting value" rfl).2.2.2.2.2.2.2

/-- C5: when `GOOGLE_API_KEY` is absent from the environment,
`create_trip_planner_agent` fails with the distinct `RuntimeError`
configuration message, with an empty construction trace: the LLM client is
never constructed and no outbound call is issued. -/
theorem c5_missing_credential_fails_fast (env : String → Option String)
    (h : env "GOOGLE_API_KEY" = none) :
    create_trip_planner_agent env =
      ([], .error (.runtimeError missingKeyMsg)) := by
  simp [create_trip_planner_agent, h]

/-- Witness for C5 at the empty environment. -/
theorem c5_witness :
    create_trip_planner_agent (fun _ => none) =
      ([], .error (.runtimeError missingKeyMsg)) :=
  c5_missing_credential_fails_fast (fun _ => none) rfl

/-- C7: for every city, `get_dummy_flight_options` returns exactly three
records whose keys are exactly airline/from/to/stops/duration_hours/
price_usd/notes with the `to` field equal to the city, and
`get_dummy_hotel_options` returns exactly three records whose keys are
exactly name/stars/price_per_night_usd/location/notes with every `name`
mentioning the city. -/
theorem c7_catalog_record_shapes (city : String) :
    (get_dummy_flight_options city).length = 3 ∧
    (get_dummy_flight_options city).map (fun r => r.map Prod.fst) =
      [["airline", "from", "to", "stops", "duration_hours", "price_usd", "notes"],
       ["airline", "from", "to", "stops", "duration_hours", "price_usd", "notes"],
       ["airline", "from", "to", "stops", "duration_hours", "price_usd", "notes"]] ∧
    (get_dummy_flight_options city).map (assocLookup "to") =
      [some (.str city), some (.str city), some (.str city)] ∧
    (get_dummy_hotel_options city).length = 3 ∧
    (get_dummy_hotel_options city).map (fun r => r.map Prod.fst) =
      [["name", "stars", "price_per_night_usd", "location", "notes"],
       ["name", "stars", "price_per_night_usd", "location", "notes"],
       ["name", "stars", "price_per_night_usd", "location", "notes"]] ∧
    ∃ q1 q2 p3,
      (get_dummy_hotel_options city).map (assocLookup "name") =
        [some (.str ("" ++ city ++ q1)), some (.str ("" ++ city ++ q2)),
         some (.str (p3 ++ city ++ ""))] := by
  refine ⟨rfl, rfl, rfl, rfl, rfl,
    " Central Comfort Hotel", " Riverside Boutique", "Luxury Grand ", ?_⟩
  simp [get_dummy_hotel_options, assocLookup]

/-- C8: the catalog providers are pure, deterministic, total functions of
the city alone, returning fixed-size lists. -/
theorem c8_catalog_deterministic (c1 c2 : String) (h : c1 = c2) :
    get_dummy_flight_options c1 = get_dummy_flight_options c2 ∧
    get_dummy_hotel_options c1 = get_dummy_hotel_options c2 ∧
    (get_dummy_flight_options c1).length = 3 ∧
    (get_dummy_hotel_options c1).length = 3 := by
  subst h
  exact ⟨rfl, rfl, rfl, rfl⟩

/-- Witness for C8 at a concrete city. -/
theorem c8_witness :
    get_dummy_flight_options "Paris" = get_dummy_flight_options "Paris" ∧
    get_dummy_hotel_options "Paris" = get_dummy_hotel_options "Paris" ∧
    (get_dummy_flight_options "Paris").length = 3 ∧
    (get_dummy_hotel_options "Paris").length = 3 :=
  c8_catalog_deterministic "Paris" "Paris" rfl

/-- C10: the catalog lists are monotonically ordered for every city:
flight stops are 0, 1, 2 (strictly increasing, nonnegative), durations
strictly increase, prices strictly decrease; hotel stars are 3, 4, 5
(strictly increasing, within 1-5) and nightly prices strictly increase. -/
theorem c10_catalog_orderings (city : String) :
    intFields "stops" (get_dummy_flight_options city) = [0, 1, 2] ∧
    List.Chain' (· < ·) (intFields "stops" (get_dummy_flight_options city)) ∧
    (intFields "stops" (get_dummy_flight_options city)).all
      (fun n => decide (0 ≤ n)) = true ∧
    intFields "duration_hours" (get_dummy_flight_options city) = [7, 10, 13] ∧
    List.Chain' (· < ·)
      (intFields "duration_hours" (get_dummy_flight_options city)) ∧
    intFields "price_usd" (get_dummy_flight_options city) = [650, 520, 430] ∧
    List.Chain' (· > ·) (intFields "price_usd" (get_dummy_flight_options city)) ∧
    intFields "stars" (get_dummy_hotel_options city) = [3, 4, 5] ∧
    List.Chain' (· < ·) (intFields "stars" (get_dummy_hotel_options city)) ∧
    (intFields "stars" (get_dummy_hotel_options city)).all
      (fun n => decide (1 ≤ n) && decide (n ≤ 5)) = true ∧
    intFields "price_per_night_usd" (get_dummy_hotel_options city) =
      [90, 150, 260] ∧
    List.Chain' (· < ·)
      (intFields "price_per_night_usd" (get_dummy_hotel_options city)) := by
  refine ⟨rfl, ?_, rfl, rfl, ?_, rfl, ?_, rfl, ?_, rfl, rfl, ?_⟩
  · show List.Chain' (· < ·) ([0, 1, 2] : List Int)
    norm_num [List.chain'_cons]
  · show List.Chain' (· < ·) ([7, 10, 13] : List Int)
    norm_num [List.chain'_cons]
  · show List.Chain' (· > ·) ([650, 520, 430] : List Int)
    norm_num [List.chain'_cons]
  · show List.Chain' (· < ·) ([3, 4, 5] : List Int)
    norm_num [List.chain'_cons]
  · show List.Chain' (· < ·) ([90, 150, 260] : List Int)
    norm_num [List.chain'_cons]

/-- Counterexample to C1 as stated: with day count 3 ≥ 1 and an agent
whose final text is the decodable JSON `"{}"`, `plan_trip` returns the
decoded empty object, which contains none of the six top-level keys. -/
theorem c1_counterexample :
    plan_trip (fun _ => "\x7b\x7d") "Paris" 3 = JValue.obj [] ∧
    jLookup "city_overview" (plan_trip (fun _ => "\x7b\x7d") "Paris" 3) = none ∧
    jLookup "weather_summary" (plan_trip (fun _ => "\x7b\x7d") "Paris" 3) = none ∧
    jLookup "suggested_dates" (plan_trip (fun _ => "\x7b\x7d") "Paris" 3) = none ∧
    jLookup "flight_options" (plan_trip (fun _ => "\x7b\x7d") "Paris" 3) = none ∧
    jLookup "hotel_options" (plan_trip (fun _ => "\x7b\x7d") "Paris" 3) = none ∧
    jLookup "itinerary" (plan_trip (fun _ => "\x7b\x7d") "Paris" 3) = none :=
  ⟨rfl, rfl, rfl, rfl, rfl, rfl, rfl⟩

/-- C1 amended: for every destination string and day count ≥ 1, the
object returned by `plan_trip` contains all six top-level keys whenever
JSON decoding of the agent's (stripped) final text fails; when decoding
succeeds, the decoded value is returned as-is, so it contains the keys
only if the agent's JSON does. -/
theorem c1_amended_keys (invokeAgent : String → String) (city : String)
    (numDays : Int) (hdays : 1 ≤ numDays) :
    (∀ e, jsonLoads (pyStrip (invokeAgent (userRequest city numDays))) = .error e →
      jLookup "city_overview" (plan_trip invokeAgent city numDays) =
        some (.str parseErrorCityOverview) ∧
      jLookup "weather_summary" (plan_trip invokeAgent city numDays) =
        some (.str "") ∧
      jLookup "suggested_dates" (plan_trip invokeAgent city numDays) =
        some (.str "") ∧
      jLookup "flight_options" (plan_trip invokeAgent city numDays) =
        some (.arr []) ∧
      jLookup "hotel_options" (plan_trip invokeAgent city numDays) =
        some (.arr []) ∧
      jLookup "itinerary" (plan_trip invokeAgent city numDays) =
        some (.arr [])) ∧
    (∀ v, jsonLoads (pyStrip (invokeAgent (userRequest city numDays))) = .ok v →
      plan_trip invokeAgent city numDays = v) := by
  constructor
  · intro e h
    have hp : plan_trip invokeAgent city numDays =
        fallbackTripObj (pyStrip (invokeAgent (userRequest city numDays))) := by
      simp [plan_trip, parseAgentOutput, h]
    rw [hp]
    exact ⟨rfl, rfl, rfl, rfl, rfl, rfl⟩
  · intro v h
    simp [plan_trip, parseAgentOutput, h]

/-- Witness for the amended C1: both branches at concrete inputs. -/
theorem c1_witness :
    jLookup "itinerary" (plan_trip (fun _ => "nope") "Paris" 3) =
      some (JValue.arr []) ∧
    plan_trip (fun _ => "[]") "Rome" 2 = JValue.arr [] :=
  ⟨((c1_amended_keys (fun _ => "nope") "Paris" 3 (by norm_num)).1
      "Expecting value" rfl).2.2.2.2.2,
   (c1_amended_keys (fun _ => "[]") "Rome" 2 (by norm_num)).2
      (JValue.arr []) rfl⟩

/-- C4: when the text decodes as JSON matching the schema, the parser
returns the decoded object unchanged, and the result has no `raw_output`
field. -/
theorem c4_success_returns_decoded (t : String) (v : JValue)
    (hok : jsonLoads t = .ok v) (hschema : matchesTripSchema v = true) :
    parseAgentOutput t = v ∧ jLookup "raw_output" v = none := by
  refine ⟨by simp [parseAgentOutput, hok], ?_⟩
  cases v with
  | obj fs =>
    simp only [matchesTripSchema, Bool.and_eq_true, beq_iff_eq] at hschema
    obtain ⟨hkeys, _⟩ := hschema
    simp only [jLookup]
    apply assocLookup_eq_none_of_not_mem
    rw [hkeys]
    decide
  | null => simp [matchesTripSchema] at hschema
  | bool b => simp [matchesTripSchema] at hschema
  | int n => simp [matchesTripSchema] at hschema
  | dec m e => simp [matchesTripSchema] at hschema
  | nan => simp [matchesTripSchema] at hschema
  | inf => simp [matchesTripSchema] at hschema
  | ninf => simp [matchesTripSchema] at hschema
  | str s => simp [matchesTripSchema] at hschema
  | arr es => simp [matchesTripSchema] at hschema

/-- Witness for C4 at a concrete schema-conforming JSON text. -/
theorem c4_witness :
    parseAgentOutput "\x7b\"city_overview\":\"a\",\"weather_summary\":\"b\",\"suggested_dates\":\"c\",\"flight_options\":[],\"hotel_options\":[],\"itinerary\":[]\x7d" =
      JValue.obj [("city_overview", .str "a"), ("weather_summary", .str "b"),
        ("suggested_dates", .str "c"), ("flight_options", .arr []),
        ("hotel_options", .arr []), ("itinerary", .arr [])] ∧
    jLookup "raw_output"
      (JValue.obj [("city_overview", .str "a"), ("weather_summary", .str "b"),
        ("suggested_dates", .str "c"), ("flight_options", .arr []),
        ("hotel_options", .arr []), ("itinerary", .arr [])]) = none :=
  c4_success_returns_decoded _ _ rfl rfl

theorem length_dropWhile_le {α : Type} (p : α → Bool) (l : List α) :
    (l.dropWhile p).length ≤ l.length := by
  induction l with
  | nil => simp
  | cons c t ih =>
    rw [List.dropWhile_cons]
    by_cases hp : p c = true
    · rw [if_pos hp]
      simp only [List.length_cons]
      omega
    · rw [if_neg hp]

theorem append3_ne_empty (s t u : String) (h : s.data ≠ []) :
    s ++ t ++ u ≠ "" := by
  intro hc
  have hd : (s ++ t ++ u).data = ("" : String).data := congrArg String.data hc
  rw [String.data_append, String.data_append] at hd
  have hempty : ("" : String).data = ([] : List Char) := rfl
  rw [hempty] at hd
  exact h (List.append_eq_nil.mp (List.append_eq_nil.mp hd).1).1

/-- C6: `get_current_weather` is a total function of its city and its
oracles.  When the weather credential is missing it returns the fixed
non-empty fallback message with an empty request trace (no network call);
when the `try` body fails for any network, auth (HTTP status) or parse
reason, it returns the non-empty descriptive fallback message built from
the exception text instead of propagating the error. -/
theorem c6_weather_total_and_fallbacks (env : String → Option String)
    (net : HttpRequest → Except String HttpResponse) (city : String) :
    (env "OPENWEATHER_API_KEY" = none →
      get_current_weather env net city = ([], weatherUnavailableMsg)) ∧
    weatherUnavailableMsg ≠ "" ∧
    (∀ apiKey e, env "OPENWEATHER_API_KEY" = some apiKey → apiKey ≠ "" →
      (weatherTryBody net apiKey city).2 = .error e →
      get_current_weather env net city =
        ((weatherTryBody net apiKey city).1, couldNotFetchMsg e) ∧
      couldNotFetchMsg e ≠ "") := by
  refine ⟨?_, ?_, ?_⟩
  · intro h
    simp [get_current_weather, h]
  · decide
  · intro apiKey e henv hne htb
    constructor
    · have hk : (apiKey == "") = false := by
        simp only [beq_eq_false_iff_ne]
        exact hne
      rcases hw : weatherTryBody net apiKey city with ⟨reqs, res⟩
      rw [hw] at htb
      have hres : res = .error e := htb
      subst hres
      simp [get_current_weather, henv, hk, hw]
    · exact append3_ne_empty _ e _ (by decide)

/-- Witness for C6: missing credential, and a network error, at concrete
oracles. -/
theorem c6_witness :
    get_current_weather (fun _ => none)
      (fun _ => .error "ConnectionError") "Paris" =
      ([], weatherUnavailableMsg) ∧
    get_current_weather (fun _ => some "k")
      (fun _ => .error "ConnectionError") "Paris" =
      ((weatherTryBody (fun _ => .error "ConnectionError") "k" "Paris").1,
        couldNotFetchMsg "ConnectionError") ∧
    couldNotFetchMsg "ConnectionError" ≠ "" :=
  ⟨(c6_weather_total_and_fallbacks (fun _ => none)
      (fun _ => .error "ConnectionError") "Paris").1 rfl,
   ((c6_weather_total_and_fallbacks (fun _ => some "k")
      (fun _ => .error "ConnectionError") "Paris").2.2 "k" "ConnectionError"
      rfl (by decide) rfl).1,
   ((c6_weather_total_and_fallbacks (fun _ => some "k")
      (fun _ => .error "ConnectionError") "Paris").2.2 "k" "ConnectionError"
      rfl (by decide) rfl).2⟩

theorem dropWhile_append_of_all {α : Type} (p : α → Bool) (l1 l2 : List α)
    (h : ∀ c ∈ l1, p c = true) :
    (l1 ++ l2).dropWhile p = l2.dropWhile p := by
  induction l1 with
  | nil => rfl
  | cons c t ih =>
    rw [List.cons_append, List.dropWhile_cons, if_pos (h c (List.mem_cons_self c t))]
    exact ih fun x hx => h x (List.mem_cons_of_mem c hx)

theorem dropWhile_eq_self_of_length {α : Type} (p : α → Bool) (l : List α)
    (h : (l.dropWhile p).length = l.length) : l.dropWhile p = l := by
  induction l with
  | nil => rfl
  | cons c t ih =>
    rw [List.dropWhile_cons] at h ⊢
    by_cases hp : p c = true
    · rw [if_pos hp] at h
      simp only [List.length_cons] at h
      have hle := length_dropWhile_le p t
      omega
    · rw [if_neg hp]

theorem pyStripList_eq_self_parts (l : List Char) (h : pyStripList l = l) :
    l.dropWhile isPySpace = l ∧
    l.reverse.dropWhile isPySpace = l.reverse := by
  have h1 : ((l.dropWhile isPySpace).reverse.dropWhile isPySpace).reverse = l := h
  have ha : l.dropWhile isPySpace = l := by
    apply dropWhile_eq_self_of_length
    have len1 := congrArg List.length h1
    have hr1 := List.length_reverse
      ((l.dropWhile isPySpace).reverse.dropWhile isPySpace)
    have hr2 := List.length_reverse (l.dropWhile isPySpace)
    have le1 := length_dropWhile_le isPySpace l
    have le2 := length_dropWhile_le isPySpace (l.dropWhile isPySpace).reverse
    omega
  have hb : l.reverse.dropWhile isPySpace = l.reverse := by
    apply dropWhile_eq_self_of_length
    rw [ha] at h1
    have := congrArg List.length h1
    simpa using this
  exact ⟨ha, hb⟩

theorem pyStripList_sandwich (ws1 ws2 doc : List Char)
    (h1 : ∀ c ∈ ws1, isPySpace c = true)
    (h2 : ∀ c ∈ ws2, isPySpace c = true)
    (hdoc : pyStripList doc = doc) :
    pyStripList (ws1 ++ doc ++ ws2) = doc := by
  obtain ⟨hfront, hback⟩ := pyStripList_eq_self_parts doc hdoc
  show (((ws1 ++ doc ++ ws2).dropWhile isPySpace).reverse.dropWhile
    isPySpace).reverse = doc
  rw [List.append_assoc, dropWhile_append_of_all isPySpace ws1 (doc ++ ws2) h1]
  cases doc with
  | nil =>
    simp only [List.nil_append]
    have hw2 : ws2.dropWhile isPySpace = ([] : List Char) := by
      have := dropWhile_append_of_all isPySpace ws2 [] h2
      simpa using this
    rw [hw2]
    rfl
  | cons c t =>
    have hpc : isPySpace c = false := by
      by_cases hcc : isPySpace c = true
      · rw [List.dropWhile_cons, if_pos hcc] at hfront
        have hlen := congrArg List.length hfront
        have hle := length_dropWhile_le isPySpace t
        simp only [List.length_cons] at hlen
        omega
      · exact Bool.not_eq_true _ ▸ eq_false_of_ne_true hcc
    rw [List.cons_append, List.dropWhile_cons,
      if_neg (by simp [hpc] : ¬ isPySpace c = true), ← List.cons_append,
      List.reverse_append,
      dropWhile_append_of_all isPySpace ws2.reverse (c :: t).reverse
        (fun x hx => h2 x (List.mem_reverse.mp hx)),
      hback, List.reverse_reverse]

/-- C9: `plan_trip` strips the agent output before decoding, so any valid
JSON document surrounded by (Python) whitespace decodes to its value; and
on decode failure the `raw_output` field holds the stripped text, not the
original agent output. -/
theorem c9_strips_before_decoding (invokeAgent : String → String)
    (city : String) (numDays : Int) :
    (∀ ws1 ws2 doc v,
      (∀ c ∈ ws1.data, isPySpace c = true) →
      (∀ c ∈ ws2.data, isPySpace c = true) →
      pyStrip doc = doc →
      jsonLoads doc = .ok v →
      invokeAgent (userRequest city numDays) = ws1 ++ doc ++ ws2 →
      plan_trip invokeAgent city numDays = v) ∧
    (∀ e, jsonLoads (pyStrip (invokeAgent (userRequest city numDays))) =
        .error e →
      jLookup "raw_output" (plan_trip invokeAgent city numDays) =
        some (.str (pyStrip (invokeAgent (userRequest city numDays))))) := by
  constructor
  · intro ws1 ws2 doc v h1 h2 hdoc hok hout
    have hdocL : pyStripList doc.data = doc.data := congrArg String.data hdoc
    have hstrip : pyStrip (ws1 ++ doc ++ ws2) = doc := by
      apply String.ext
      show pyStripList (ws1 ++ doc ++ ws2).data = doc.data
      rw [String.data_append, String.data_append]
      exact pyStripList_sandwich ws1.data ws2.data doc.data h1 h2 hdocL
    simp only [plan_trip]
    rw [hout, hstrip]
    simp [parseAgentOutput, hok]
  · intro e h
    have hp : plan_trip invokeAgent city numDays =
        fallbackTripObj (pyStrip (invokeAgent (userRequest city numDays))) := by
      simp [plan_trip, parseAgentOutput, h]
    rw [hp]
    rfl

/-- Witness for C9: a form feed (stripped by Python, not JSON whitespace)
before a document, and the stripped raw text on failure. -/
theorem c9_witness :
    plan_trip (fun _ => "\x0c[1] ") "Nice" 2 = JValue.arr [JValue.int 1] ∧
    jLookup "raw_output" (plan_trip (fun _ => " oops ") "Nice" 4) =
      some (JValue.str "oops") :=
  ⟨(c9_strips_before_decoding (fun _ => "\x0c[1] ") "Nice" 2).1
      "\x0c" " " "[1]" (JValue.arr [JValue.int 1])
      (by decide) (by decide) rfl rfl rfl,
   (c9_strips_before_decoding (fun _ => " oops ") "Nice" 4).2
      "Expecting value" rfl⟩
